import Mathlib

/-!
Shallow embedding of the vidyaaitest backend content pipeline.

Source files embedded here:
- backend/services/ai_service_manager.py (ModelType, ContentType,
  AIServiceManager.select_best_model, generate_enhanced_content,
  _parse_enhanced_response, _enhance_content_formatting, the _format_* helpers
  and the four _create_*_fallback_content builders),
- backend/services/azure_speech_service.py (AzureSpeechService.__init__,
  text_to_speech routing, _text_to_speech_chunked splitting,
  _combine_audio_files, _fallback_text_to_speech, _create_silent_audio),
- backend/services/video_service.py (VideoService.create_final_video,
  _create_moviepy_video slide durations, _create_simple_video),
- backend/main.py (process_content_generation) and
  backend/models/content_models.py (ProcessingStatus.update_status).

External collaborators (the Groq/OpenAI HTTP clients, json.loads from the
Python standard library, the pyttsx3/espeak/gTTS/wave audio producers, the
moviepy/ffmpeg encoders and the filesystem) are modelled as explicit inputs:
an outcome parameter records whether the external step succeeded and, for
file producers, how many bytes it wrote.  All Python string operations are
re-implemented over `List Char` so that every definition evaluates inside the
kernel.
-/

/-- Python-style JSON value as produced by `json.loads` and manipulated by the
content pipeline.  All numeric fields occurring in this code are integral
durations, so numbers are `Int`. -/
inductive Json where
  | null
  | bool (b : Bool)
  | num (n : Int)
  | str (s : String)
  | arr (elems : List Json)
  | obj (fields : List (String × Json))

/-- Dictionary lookup, `none` when the value is not a dict or lacks the key. -/
def Json.lookup : Json → String → Option Json
  | .obj fields, key => List.lookup key fields
  | _, _ => none

/-- Lookup of a string-valued field. -/
def Json.getStr (j : Json) (key : String) : Option String :=
  match j.lookup key with
  | some (.str s) => some s
  | _ => none

/-- Python truthiness of a JSON value (`if result_data:`): empty containers,
empty strings, `0`, `False` and `None` are falsy. -/
def Json.pyTruthy : Json → Bool
  | .null => false
  | .bool b => b
  | .num n => n != 0
  | .str s => s.length != 0
  | .arr xs => !xs.isEmpty
  | .obj fs => !fs.isEmpty

/-! ## Python string primitives over `List Char`

Core `String` functions such as `splitOn` and `trim` do not reduce inside the
kernel, so the Python string operations used by the pipeline are
re-implemented over `List Char` and wrapped for `String`. -/

/-- Whether `pat` is a prefix of `s` (test used by the substring scan). -/
def startsWithL : List Char → List Char → Bool
  | [], _ => true
  | _ :: _, [] => false
  | p :: ps, c :: cs => p == c && startsWithL ps cs

/-- Python `pat in s` substring test, scanning left to right. -/
def containsL : List Char → List Char → Bool
  | pat, [] => pat.isEmpty
  | pat, c :: cs => startsWithL pat (c :: cs) || containsL pat cs

/-- Python `pat in s` on strings. -/
def pyInStr (pat s : String) : Bool := containsL pat.data s.data

/-- Python `str.lower()` (ASCII case fold, which covers every keyword the
classifier compares against). -/
def pyLower (s : String) : String := String.mk (s.data.map Char.toLower)

/-- Python `str.strip()` on a character list. -/
def trimL (xs : List Char) : List Char :=
  ((xs.dropWhile Char.isWhitespace).reverse.dropWhile Char.isWhitespace).reverse

/-- Python `str.strip()` on strings. -/
def pyStrip (s : String) : String := String.mk (trimL s.data)

/-- Replace every non-overlapping occurrence of `pat` (non-empty) by `rep`,
scanning left to right as Python `str.replace` does.  The extra `fuel`
argument (instantiated with the length of the scanned list) only serves
termination; the scan never exhausts it. -/
def replaceLAux (pat rep : List Char) : Nat → List Char → List Char
  | 0, xs => xs
  | _ + 1, [] => []
  | fuel + 1, c :: cs =>
    if startsWithL pat (c :: cs) && !pat.isEmpty then
      rep ++ replaceLAux pat rep fuel ((c :: cs).drop pat.length)
    else
      c :: replaceLAux pat rep fuel cs

/-- Python `str.replace` on strings. -/
def pyReplace (s pat rep : String) : String :=
  String.mk (replaceLAux pat.data rep.data s.data.length s.data)

/-- Python `str.split(sep)` (keeping empty pieces) on character lists; `sep`
is assumed non-empty, as at every use site. -/
def splitSepAux (sep : List Char) : Nat → List Char → List Char → List (List Char)
  | 0, xs, cur => [cur.reverse ++ xs]
  | _ + 1, [], cur => [cur.reverse]
  | fuel + 1, c :: cs, cur =>
    if startsWithL sep (c :: cs) && !sep.isEmpty then
      cur.reverse :: splitSepAux sep fuel ((c :: cs).drop sep.length) []
    else
      splitSepAux sep fuel cs (c :: cur)

/-- Python `s.split(sep)` on strings. -/
def pySplitSep (s sep : String) : List String :=
  (splitSepAux sep.data s.data.length s.data []).map String.mk

/-- Python whitespace-`split()` (no argument): splits on runs of whitespace
and drops empty pieces. -/
def pyWords (s : String) : List String :=
  (splitSepAux [' '] s.data.length (s.data.map (fun c => if c.isWhitespace then ' ' else c)) []).filterMap
    (fun w => if w.isEmpty then none else some (String.mk w))

/-- Python `sep.join(parts)`. -/
def pyJoin (sep : String) : List String → String
  | [] => ""
  | [x] => x
  | x :: y :: rest => x ++ sep ++ pyJoin sep (y :: rest)

/-- Python `str.endswith`. -/
def pyEndsWith (s suf : String) : Bool :=
  startsWithL suf.data.reverse s.data.reverse

/-- Python `str.upper()` applied to a single character position
(`sentence[0].upper()`). -/
def pyCapitalizeFirst (s : String) : String :=
  match s.data with
  | [] => s
  | c :: rest => if c.isUpper then s else String.mk (c.toUpper :: rest)

/-! ## ModelSelector (ai_service_manager.py) -/

/-- The `ModelType` enum of ai_service_manager.py. -/
inductive ModelType where
  | groq_llama
  | groq_mixtral
  | groq_gemma
  | openai_gpt4
  | openai_gpt35
  | openai_gpt4_turbo
deriving DecidableEq, Repr

/-- Python `str(model)` for a `ModelType` member, as interpolated into the
`"Unsupported model: ..."` message. -/
def pyModelStr : ModelType → String
  | .groq_llama => "ModelType.GROQ_LLAMA"
  | .groq_mixtral => "ModelType.GROQ_MIXTRAL"
  | .groq_gemma => "ModelType.GROQ_GEMMA"
  | .openai_gpt4 => "ModelType.OPENAI_GPT4"
  | .openai_gpt35 => "ModelType.OPENAI_GPT35"
  | .openai_gpt4_turbo => "ModelType.OPENAI_GPT4_TURBO"

/-- The `ContentType` enum of ai_service_manager.py. -/
inductive ContentTypeE where
  | educational
  | technical
  | creative
  | analytical
deriving DecidableEq, Repr

/-- AIServiceManager.select_best_model.  `available` is
`self.available_models`; a raised `ValueError` is an `Except.error` carrying
the exception text.  The three `content_type` branches can fall through to
the common "Fallback to best available" chain exactly as the Python `if`
chain does. -/
def selectBestModel (available : List ModelType) (contentType : ContentTypeE)
    (complexity : String) (speedPriority : Bool) : Except String ModelType :=
  if available.isEmpty then .error "No AI models available"
  else if speedPriority then
    if available.contains .groq_llama then .ok .groq_llama
    else if available.contains .groq_gemma then .ok .groq_gemma
    else if available.contains .groq_mixtral then .ok .groq_mixtral
    else if available.contains .openai_gpt35 then .ok .openai_gpt35
    else .ok .openai_gpt4
  else
    match (match contentType with
      | .technical =>
        if complexity = "advanced" && available.contains .openai_gpt4_turbo then
          some ModelType.openai_gpt4_turbo
        else if available.contains .openai_gpt4 then some ModelType.openai_gpt4
        else if available.contains .groq_mixtral then some ModelType.groq_mixtral
        else none
      | .creative =>
        if available.contains .openai_gpt4_turbo then some ModelType.openai_gpt4_turbo
        else if available.contains .openai_gpt4 then some ModelType.openai_gpt4
        else if available.contains .groq_mixtral then some ModelType.groq_mixtral
        else none
      | .educational =>
        if available.contains .groq_mixtral then some ModelType.groq_mixtral
        else if available.contains .openai_gpt4 then some ModelType.openai_gpt4
        else if available.contains .groq_gemma then some ModelType.groq_gemma
        else none
      | .analytical => none) with
    | some m => .ok m
    | none =>
      if available.contains .openai_gpt4_turbo then .ok .openai_gpt4_turbo
      else if available.contains .openai_gpt4 then .ok .openai_gpt4
      else if available.contains .groq_mixtral then .ok .groq_mixtral
      else .ok .groq_llama

/-- AIServiceManager.__init__ outcome: which client initialisations
succeeded (a client is initialised when its API key is configured and the
constructor does not raise). -/
structure AIState where
  groqInit : Bool
  openaiInit : Bool

/-- `self.available_models` as populated by AIServiceManager.__init__. -/
def availableModels (st : AIState) : List ModelType :=
  (if st.groqInit then [.groq_llama, .groq_mixtral, .groq_gemma] else []) ++
  (if st.openaiInit then [.openai_gpt4, .openai_gpt35, .openai_gpt4_turbo] else [])

/-- C10: with only OPENAI_GPT4_TURBO available and speed priority set,
select_best_model returns OPENAI_GPT4, which is not in the available set:
the selector does not guarantee membership of its result. -/
theorem C10_select_nonmember :
    selectBestModel [ModelType.openai_gpt4_turbo] ContentTypeE.educational "beginner" true
      = Except.ok ModelType.openai_gpt4
    ∧ ModelType.openai_gpt4 ∉ [ModelType.openai_gpt4_turbo] := by
  constructor
  · rfl
  · decide

/-! ## Fallback content templates (ai_service_manager.py, _create_*_fallback_content) -/

/-- Keyword classification performed by AIServiceManager._create_fallback_content:
case-insensitive substring match on the topic. -/
inductive TopicClass where
  | ai
  | science
  | history
  | general
deriving DecidableEq, Repr

/-- The chain of `in topic.lower()` checks of _create_fallback_content. -/
def classifyTopic (topic : String) : TopicClass :=
  let t := pyLower topic
  if pyInStr "ai" t || pyInStr "artificial intelligence" t then .ai
  else if pyInStr "science" t || pyInStr "physics" t || pyInStr "chemistry" t then .science
  else if pyInStr "history" t || pyInStr "war" t then .history
  else .general

/-- AIServiceManager._create_ai_fallback_content. -/
def createAiFallbackContent (topic difficulty audience : String) : Json :=
  Json.obj [
    ("summary", .str ("Artificial Intelligence (AI) is revolutionizing how we interact with technology and solve complex problems. This " ++ difficulty ++ " level explanation is designed for " ++ audience ++ ".")),
    ("key_concepts", .arr [
      .str "What is Artificial Intelligence",
      .str "Machine Learning and Deep Learning",
      .str "AI Applications in Daily Life",
      .str "The Future of AI"]),
    ("sections", .arr [
      .obj [
        ("title", .str "🤖 What is Artificial Intelligence?"),
        ("subheading", .str "**What is Artificial Intelligence?**"),
        ("content", .str "Artificial Intelligence refers to computer systems that can perform tasks requiring human intelligence. These systems can learn, reason, and solve problems. AI analyzes data to recognize patterns and make decisions. It powers many technologies we use daily."),
        ("key_points", .arr [
          .str "• Mimics human intelligence in machines",
          .str "• Learns from data and experience",
          .str "• Widely used in technology today",
          .str "• Powers voice assistants and apps"]),
        ("visual_description", .str "Visual: Animated brain connecting to computer with data flow"),
        ("duration_estimate", .num 60)],
      .obj [
        ("title", .str "🧠 Machine Learning and Deep Learning"),
        ("subheading", .str "**How do machines learn?**"),
        ("content", .str "Machine Learning helps computers improve through experience without explicit programming. Deep Learning uses neural networks inspired by the human brain. These systems process vast amounts of data automatically. They enable modern AI applications we use today."),
        ("key_points", .arr [
          .str "• Computers learn from data automatically",
          .str "• Neural networks mimic brain structure",
          .str "• Powers image and speech recognition",
          .str "• Enables modern AI applications"]),
        ("visual_description", .str "Visual: Animated neural network with nodes and connections showing data processing"),
        ("duration_estimate", .num 70)],
      .obj [
        ("title", .str "📱 AI Applications in Daily Life"),
        ("subheading", .str "**Where do we see AI today?**"),
        ("content", .str "AI works behind the scenes in many daily technologies. Smartphones use AI for facial recognition and voice commands. Streaming services recommend content using AI. Navigation apps find routes and predict traffic with AI."),
        ("key_points", .arr [
          .str "• Powers smartphone features and apps",
          .str "• Recommendation systems use AI",
          .str "• Transforms healthcare and transportation",
          .str "• Works behind the scenes daily"]),
        ("visual_description", .str "Visual: Collage of AI applications showing smartphone, medical equipment, self-driving car, and streaming interface"),
        ("duration_estimate", .num 65)]]),
    ("full_explanation", .str ("Welcome to our exploration of Artificial Intelligence! AI is one of the most exciting and rapidly evolving fields in technology today. We\x27ll discover how AI works, where it\x27s already being used, and what the future might hold. Whether you\x27re a " ++ audience ++ " interested in technology or just curious about how your smartphone seems to \x27know\x27 what you want, this " ++ difficulty ++ " level explanation will give you a solid understanding of AI and its impact on our world.")),
    ("estimated_duration", .num 195),
    ("topic", .str topic)]

/-- AIServiceManager._create_science_fallback_content.  Its sections carry no
"subheading" field. -/
def createScienceFallbackContent (topic difficulty audience : String) : Json :=
  Json.obj [
    ("summary", .str ("Science helps us understand the natural world through observation, experimentation, and logical reasoning. This " ++ difficulty ++ " level explanation of " ++ topic ++ " is designed for " ++ audience ++ ".")),
    ("key_concepts", .arr [
      .str ("Understanding " ++ topic),
      .str ("Scientific principles behind " ++ topic),
      .str ("Real-world applications of " ++ topic),
      .str ("Future developments in " ++ topic)]),
    ("sections", .arr [
      .obj [
        ("title", .str ("Introduction to " ++ topic)),
        ("content", .str ("Science is our way of understanding the natural world through careful observation and experimentation. " ++ topic ++ " is a fascinating area of scientific study that helps us understand how things work.\n\nThrough scientific methods, we can discover the underlying principles that govern " ++ topic ++ " and use this knowledge to solve problems and improve our lives.")),
        ("key_points", .arr [
          .str (topic ++ " is based on scientific principles"),
          .str "Observation and experimentation are key",
          .str "Scientific knowledge helps solve real problems"]),
        ("visual_description", .str ("Scientific laboratory setting with equipment and diagrams related to " ++ topic)),
        ("duration_estimate", .num 50)],
      .obj [
        ("title", .str "Key Scientific Principles"),
        ("content", .str ("The study of " ++ topic ++ " is built on fundamental scientific principles that have been tested and verified through experiments. These principles help us predict how " ++ topic ++ " will behave under different conditions.\n\nUnderstanding these principles allows scientists and engineers to develop new technologies and applications that benefit society.")),
        ("key_points", .arr [
          .str ("Scientific principles govern " ++ topic),
          .str "Experiments verify these principles",
          .str "Principles enable technological development"]),
        ("visual_description", .str ("Animated diagrams showing the scientific principles behind " ++ topic)),
        ("duration_estimate", .num 55)],
      .obj [
        ("title", .str "Applications and Impact"),
        ("content", .str ("The knowledge gained from studying " ++ topic ++ " has led to many practical applications that affect our daily lives. From medical treatments to environmental solutions, the applications of " ++ topic ++ " are vast and growing.\n\nAs our understanding deepens, we continue to find new ways to apply this knowledge for the benefit of humanity and the planet.")),
        ("key_points", .arr [
          .str (topic ++ " has many practical applications"),
          .str "Applications improve our daily lives",
          .str "New applications are constantly being developed"]),
        ("visual_description", .str ("Real-world examples showing applications of " ++ topic ++ " in various fields")),
        ("duration_estimate", .num 50)]]),
    ("full_explanation", .str ("Science is our greatest tool for understanding the world around us. Through the study of " ++ topic ++ ", we gain insights into how the natural world works and how we can use this knowledge to improve our lives. This " ++ difficulty ++ " level explanation is designed for " ++ audience ++ " who want to understand the scientific principles behind " ++ topic ++ " and see how this knowledge is applied in the real world.")),
    ("estimated_duration", .num 155),
    ("topic", .str topic)]

/-- AIServiceManager._create_history_fallback_content.  Its sections carry no
"subheading" field. -/
def createHistoryFallbackContent (topic difficulty audience : String) : Json :=
  Json.obj [
    ("summary", .str ("History helps us understand how past events have shaped our world today. This " ++ difficulty ++ " level exploration of " ++ topic ++ " is designed for " ++ audience ++ ".")),
    ("key_concepts", .arr [
      .str ("Historical context of " ++ topic),
      .str "Key events and figures",
      .str "Impact on the modern world",
      .str "Lessons from history"]),
    ("sections", .arr [
      .obj [
        ("title", .str ("Historical Background of " ++ topic)),
        ("content", .str ("Understanding " ++ topic ++ " requires us to look at the historical context in which it occurred. History is not just about dates and facts, but about understanding the causes and effects of events.\n\nBy studying the past, we can better understand the present and make more informed decisions about the future.")),
        ("key_points", .arr [
          .str (topic ++ " occurred in a specific historical context"),
          .str "Understanding causes and effects is important",
          .str "History helps us understand the present"]),
        ("visual_description", .str ("Historical timeline and maps showing the context of " ++ topic)),
        ("duration_estimate", .num 55)],
      .obj [
        ("title", .str "Key Events and Figures"),
        ("content", .str ("The story of " ++ topic ++ " involves many important events and influential people who shaped its course. These individuals and events had lasting impacts that we still feel today.\n\nBy studying these key figures and events, we can understand how decisions made in the past continue to influence our world.")),
        ("key_points", .arr [
          .str ("Important figures played key roles in " ++ topic),
          .str "Major events shaped the course of history",
          .str "Past decisions still influence us today"]),
        ("visual_description", .str ("Portraits of key figures and scenes from important events in " ++ topic)),
        ("duration_estimate", .num 60)],
      .obj [
        ("title", .str "Impact on the Modern World"),
        ("content", .str ("The events and developments related to " ++ topic ++ " have had lasting effects that continue to shape our world today. Understanding these connections helps us see how the past influences the present.\n\nBy learning from history, we can better understand current events and make more informed decisions about the future.")),
        ("key_points", .arr [
          .str (topic ++ " continues to influence the modern world"),
          .str "Understanding history helps with current events",
          .str "We can learn valuable lessons from the past"]),
        ("visual_description", .str ("Modern world connections showing how " ++ topic ++ " influences today\x27s society")),
        ("duration_estimate", .num 55)]]),
    ("full_explanation", .str ("History is more than just a record of past events - it\x27s a guide to understanding our world today. Through exploring " ++ topic ++ ", we\x27ll discover how past events, decisions, and people have shaped the world we live in. This " ++ difficulty ++ " level explanation is designed for " ++ audience ++ " who want to understand not just what happened, but why it matters today.")),
    ("estimated_duration", .num 170),
    ("topic", .str topic)]

/-- AIServiceManager._create_general_fallback_content. -/
def createGeneralFallbackContent (topic difficulty audience : String) : Json :=
  Json.obj [
    ("summary", .str ("Welcome to our comprehensive explanation of " ++ topic ++ ". This " ++ difficulty ++ " level content is designed for " ++ audience ++ ".")),
    ("key_concepts", .arr [
      .str ("Understanding " ++ topic),
      .str ("Key principles of " ++ topic),
      .str ("Applications of " ++ topic),
      .str "Real-world examples"]),
    ("sections", .arr [
      .obj [
        ("title", .str ("🌍 Explain " ++ topic)),
        ("subheading", .str ("**What is " ++ topic ++ "?**")),
        ("content", .str (topic ++ " is a fundamental concept that affects our daily lives. It helps us understand how things work in the world around us. Learning about " ++ topic ++ " opens new perspectives and connections. This knowledge is essential for understanding many other subjects.")),
        ("key_points", .arr [
          .str ("• " ++ topic ++ " affects daily life"),
          .str "• Helps understand how things work",
          .str "• Opens new perspectives",
          .str "• Essential for other subjects"]),
        ("visual_description", .str ("Visual: Animated diagram showing " ++ topic ++ " in action with clear, engaging graphics")),
        ("duration_estimate", .num 45)],
      .obj [
        ("title", .str ("🔬 How " ++ topic ++ " Works")),
        ("subheading", .str "**What are the key principles?**"),
        ("content", .str ("The key principles of " ++ topic ++ " form the foundation of our understanding. These principles work together to create the effects we observe. Understanding these principles helps us predict and explain behavior. They connect to many other areas of knowledge.")),
        ("key_points", .arr [
          .str ("• Key principles of " ++ topic),
          .str "• How principles work together",
          .str "• Helps predict behavior",
          .str "• Connects to other knowledge"]),
        ("visual_description", .str ("Visual: Animated diagrams showing the key principles of " ++ topic ++ " with clear visual representations")),
        ("duration_estimate", .num 50)],
      .obj [
        ("title", .str "🌐 Real-World Applications"),
        ("subheading", .str ("**Where do we see " ++ topic ++ "?**")),
        ("content", .str (topic ++ " appears in many real-world situations and applications. It\x27s used in technology, medicine, and everyday life. Understanding these applications shows why " ++ topic ++ " matters. This knowledge helps us solve problems and make decisions.")),
        ("key_points", .arr [
          .str ("• " ++ topic ++ " in technology"),
          .str "• Used in medicine",
          .str "• Appears in daily life",
          .str "• Helps solve problems"]),
        ("visual_description", .str ("Visual: Real-world examples and scenarios showing " ++ topic ++ " in action")),
        ("duration_estimate", .num 45)]]),
    ("full_explanation", .str ("Welcome to our comprehensive exploration of " ++ topic ++ ". Today, we\x27ll take a journey through this fascinating subject, designed specifically for " ++ audience ++ " at a " ++ difficulty ++ " level. " ++ topic ++ " is more than just a concept - it\x27s a way of understanding the world around us. We\x27ll start with the basics, build up to more complex ideas, and see how this knowledge applies in real life. By the end of our time together, you\x27ll have a solid foundation in " ++ topic ++ " and understand why it matters.")),
    ("estimated_duration", .num 140),
    ("topic", .str topic)]

/-- AIServiceManager._create_fallback_content: keyword dispatch over the four
templates. -/
def createFallbackContent (topic difficulty audience : String) : Json :=
  match classifyTopic topic with
  | .ai => createAiFallbackContent topic difficulty audience
  | .science => createScienceFallbackContent topic difficulty audience
  | .history => createHistoryFallbackContent topic difficulty audience
  | .general => createGeneralFallbackContent topic difficulty audience

/-! ## Response parsing and enhancement (ai_service_manager.py) -/

/-- Python `key in container` for JSON values: key membership for dicts,
element equality for lists, substring test for strings, TypeError
otherwise. -/
def pyJsonContains (key : String) : Json → Except String Bool
  | .obj fs => .ok (fs.any (fun kv => kv.1 == key))
  | .arr xs => .ok (xs.any (fun x => match x with | .str s => s == key | _ => false))
  | .str s => .ok (pyInStr key s)
  | _ => .error "TypeError: argument is not iterable"

/-- Python `container[key]` with a string key: dict lookup, TypeError for
every other container. -/
def pyGetItem : Json → String → Except String Json
  | .obj fs, key =>
    (match List.lookup key fs with
     | some v => .ok v
     | none => .error "KeyError")
  | _, _ => .error "TypeError: indices must be integers"

/-- Replace the value at `key` (Python dicts keep insertion order and update
in place), appending when the key is new. -/
def setField (fs : List (String × Json)) (key : String) (v : Json) : List (String × Json) :=
  match fs with
  | [] => [(key, v)]
  | (k, w) :: rest => if k == key then (k, v) :: rest else (k, w) :: setField rest key v

/-- Python `container[key] = v` with a string key. -/
def pySetItem : Json → String → Json → Except String Json
  | .obj fs, key, v => .ok (.obj (setField fs key v))
  | _, _, _ => .error "TypeError: object does not support item assignment"

/-- The `while` loop of _format_section_content collapsing triple line breaks;
`fuel` (instantiated with the string length) dominates the number of
iterations since every replacement strictly shrinks the string. -/
def collapseBreaks : Nat → String → String
  | 0, s => s
  | fuel + 1, s =>
    if pyInStr "\n\n\n" s then collapseBreaks fuel (pyReplace s "\n\n\n" "\n\n") else s

/-- AIServiceManager._format_section_content. -/
def formatSectionContent (content : String) : String :=
  let c := pyReplace (pyReplace (pyReplace content ". " ".\n\n") "! " "!\n\n") "? " "?\n\n"
  let c := collapseBreaks c.length c
  let sentences := pySplitSep c "."
  let formatted := sentences.filterMap (fun s0 =>
    let s := pyStrip s0
    if s.length == 0 then none else some (pyCapitalizeFirst s))
  let c2 := pyJoin ". " formatted
  if c2.length != 0 && !pyEndsWith c2 "." then c2 ++ "." else c2

/-- AIServiceManager._format_key_point. -/
def formatKeyPoint (point : String) : String :=
  let p := pyStrip point
  let p := pyCapitalizeFirst p
  if p.length != 0 && !pyEndsWith p "." then p ++ "." else p

/-- AIServiceManager._format_full_explanation (the first two replacements are
identities in Python as well). -/
def formatFullExplanation (e : String) : String :=
  let e := pyReplace e ". " ". "
  let e := pyReplace e ", " ", "
  let e := pyReplace e "  " " "
  pyStrip e

/-- Per-section body of the loop in _enhance_content_formatting: reformat the
"content" and "key_points" entries when present.  Non-dict sections follow
Python semantics: membership tests on strings are substring tests (always
false for the seven-plus character keys against one-character strings),
`.replace`/`.strip` on non-strings raise AttributeError, and iterating a dict
yields its keys. -/
def formatKeyPointJson : Json → Except String Json
  | .str q => .ok (.str (formatKeyPoint q))
  | _ => .error "AttributeError: no attribute strip"

/-- The list comprehension `[self._format_key_point(point) for point in
section["key_points"]]`, over each possible runtime type of the value
(lists iterate elements, strings iterate one-character strings, dicts
iterate keys, anything else raises TypeError). -/
def formatKeyPointsValue : Json → Except String Json
  | .arr ps => do
      let ps2 ← ps.mapM formatKeyPointJson
      pure (.arr ps2)
  | .str s => .ok (.arr (s.data.map (fun ch => Json.str (formatKeyPoint (String.mk [ch])))))
  | .obj fs => .ok (.arr (fs.map (fun kv => Json.str (formatKeyPoint kv.1))))
  | _ => .error "TypeError: not iterable"

def enhanceSectionJson (sec : Json) : Except String Json := do
  let hasContent ← pyJsonContains "content" sec
  let s1 ←
    if hasContent then
      match ← pyGetItem sec "content" with
      | .str cs => pySetItem sec "content" (.str (formatSectionContent cs))
      | _ => Except.error "AttributeError: no attribute replace"
    else pure sec
  let hasKeyPoints ← pyJsonContains "key_points" s1
  if hasKeyPoints then do
    let kp ← pyGetItem s1 "key_points"
    let kp2 ← formatKeyPointsValue kp
    pySetItem s1 "key_points" kp2
  else pure s1

/-- AIServiceManager._enhance_content_formatting.  Exceptions raised here are
caught by _parse_enhanced_response, which then falls back.  Note: the
function performs no validation whatsoever — a dict without a "sections"
key, or with an empty "sections" list, passes through unchanged. -/
def enhanceContentFormatting (data : Json) (topic : String) : Except String Json := do
  let hasSections ← pyJsonContains "sections" data
  let d1 ←
    if hasSections then
      match ← pyGetItem data "sections" with
      | .arr xs => do
          let xs2 ← xs.mapM enhanceSectionJson
          pySetItem data "sections" (.arr xs2)
      | .str _ => pure data
      | .obj fs =>
          if fs.any (fun kv => pyInStr "content" kv.1 || pyInStr "key_points" kv.1) then
            Except.error "TypeError: str object does not support item assignment"
          else pure data
      | _ => Except.error "TypeError: not iterable"
    else pure data
  let hasFull ← pyJsonContains "full_explanation" d1
  if hasFull then
    match ← pyGetItem d1 "full_explanation" with
    | .str s => pySetItem d1 "full_explanation" (.str (formatFullExplanation s))
    | _ => Except.error "AttributeError: no attribute replace"
  else pure d1

/-- AIServiceManager._parse_enhanced_response after the external
`json.loads`: `loaded` is the parse outcome of the cleaned response text
(`none` when extraction/cleaning/parsing raised).  The `except` clause of the
source maps every failure — including one raised while enhancing — to
`_create_fallback_content(topic, "beginner", "students")`. -/
def parseEnhancedResponse (loaded : Option Json) (topic : String) : Json :=
  match loaded with
  | none => createFallbackContent topic "beginner" "students"
  | some data =>
    match enhanceContentFormatting data topic with
    | .ok r => r
    | .error _ => createFallbackContent topic "beginner" "students"

/-! ## generate_enhanced_content (ai_service_manager.py) -/

/-- AIServiceManager._generate_with_groq.  The external chat-completion call
is the `resp` parameter: `none` when the call raised (the `except` branch
falls back), `some loaded` when it returned text whose cleaned JSON parses to
`loaded` (with `loaded = none` for unparsable text). -/
def generateWithGroq (st : AIState) (topic difficulty audience : String)
    (resp : Option (Option Json)) : Except String Json :=
  if !st.groqInit then .error "Groq client not initialized"
  else match resp with
    | none => .ok (createFallbackContent topic difficulty audience)
    | some loaded => .ok (parseEnhancedResponse loaded topic)

/-- AIServiceManager._generate_with_openai, same conventions as the Groq
path. -/
def generateWithOpenai (st : AIState) (topic difficulty audience : String)
    (resp : Option (Option Json)) : Except String Json :=
  if !st.openaiInit then .error "OpenAI client not initialized"
  else match resp with
    | none => .ok (createFallbackContent topic difficulty audience)
    | some loaded => .ok (parseEnhancedResponse loaded topic)

/-- AIServiceManager.generate_enhanced_content: select a model (passing
`difficulty` as the complexity), dispatch on the `[GROQ_LLAMA, GROQ_MIXTRAL]`
and `[OPENAI_GPT4, OPENAI_GPT35]` lists, and raise
`ValueError(f"Unsupported model: ...")` for any other selection
(GROQ_GEMMA and OPENAI_GPT4_TURBO are absent from both dispatch lists). -/
def generateEnhancedContent (st : AIState) (topic difficulty audience : String)
    (contentType : ContentTypeE) (speedPriority : Bool)
    (resp : Option (Option Json)) : Except String Json :=
  match selectBestModel (availableModels st) contentType difficulty speedPriority with
  | .error e => .error e
  | .ok model =>
    if model = .groq_llama ∨ model = .groq_mixtral then
      generateWithGroq st topic difficulty audience resp
    else if model = .openai_gpt4 ∨ model = .openai_gpt35 then
      generateWithOpenai st topic difficulty audience resp
    else .error ("Unsupported model: " ++ pyModelStr model)

/-! ## Generic string facts used by the theorems -/

theorem length_pos_left (a b : String) (h : 0 < a.length) : 0 < (a ++ b).length := by
  rw [String.length_append]; omega

theorem length_pos_right (a b : String) (h : 0 < b.length) : 0 < (a ++ b).length := by
  rw [String.length_append]; omega

theorem startsWithL_self_append (p rest : List Char) : startsWithL p (p ++ rest) = true := by
  induction p with
  | nil => rfl
  | cons c cs ih => simp [startsWithL, ih]

theorem containsL_of_startsWithL (p s : List Char) (h : startsWithL p s = true) :
    containsL p s = true := by
  cases s with
  | nil =>
    cases p with
    | nil => rfl
    | cons c cs => simp [startsWithL] at h
  | cons c cs => simp [containsL, h]

theorem containsL_append_left (p a s : List Char) (h : containsL p s = true) :
    containsL p (a ++ s) = true := by
  induction a with
  | nil => simpa using h
  | cons c cs ih => simp [containsL, ih]

/-- A string starting with `pat` contains `pat`. -/
theorem pyInStr_self_left (pat b : String) : pyInStr pat (pat ++ b) = true := by
  unfold pyInStr
  rw [String.data_append]
  exact containsL_of_startsWithL _ _ (startsWithL_self_append _ _)

/-- A string ending with `pat` contains `pat`. -/
theorem pyInStr_self_right (pat a : String) : pyInStr pat (a ++ pat) = true := by
  unfold pyInStr
  rw [String.data_append]
  refine containsL_append_left _ _ _ (containsL_of_startsWithL _ _ ?_)
  simpa using startsWithL_self_append pat.data []

/-- A string with `pat` in the middle contains `pat`. -/
theorem pyInStr_self_mid (pat a b : String) : pyInStr pat (a ++ (pat ++ b)) = true := by
  unfold pyInStr
  rw [String.data_append, String.data_append]
  exact containsL_append_left _ _ _
    (containsL_of_startsWithL _ _ (startsWithL_self_append _ _))

/-! ## C1: exceptions escaping generate_enhanced_content -/

/-- Decidable equality for `Except`, used to settle concrete selector
outcomes by evaluation. -/
instance {e a : Type} [DecidableEq e] [DecidableEq a] : DecidableEq (Except e a) := fun x y =>
  match x, y with
  | .error u, .error v => decidable_of_iff (u = v) (by simp)
  | .error _, .ok _ => isFalse (by simp)
  | .ok _, .error _ => isFalse (by simp)
  | .ok u, .ok v => decidable_of_iff (u = v) (by simp)

deriving instance Fintype for ModelType

/-- Exact behaviour of select_best_model on every reachable availability set
(`availableModels ⟨g, o⟩`): an error only when nothing is configured, and
the successful choice is consistent with the dispatch requirements of
generate_enhanced_content except for OPENAI_GPT4_TURBO, which is selected
only on a quality-priority call with the OpenAI client configured. -/
theorem selectBestModel_init_characterization (g o : Bool) (ct : ContentTypeE)
    (c : String) (sp : Bool) :
    (selectBestModel (availableModels ⟨g, o⟩) ct c sp = .error "No AI models available"
      ∧ g = false ∧ o = false)
    ∨ (∃ m, selectBestModel (availableModels ⟨g, o⟩) ct c sp = .ok m
        ∧ ((m = .groq_llama ∨ m = .groq_mixtral) → g = true)
        ∧ ((m = .openai_gpt4 ∨ m = .openai_gpt35) → o = true)
        ∧ m ≠ .groq_gemma
        ∧ (m = .openai_gpt4_turbo → sp = false ∧ o = true)) := by
  by_cases hc : c = "advanced"
  · subst hc
    cases g <;> cases o <;> cases ct <;> cases sp <;> decide
  · have hcb : (c = "advanced") = False := eq_false hc
    cases g <;> cases o <;> cases ct <;> cases sp <;>
      simp only [selectBestModel, availableModels, hcb, false_and, if_false] <;>
      decide

/-- C1 (amended): generate_enhanced_content never raises because of malformed
or failing backend output (those paths all return fallback content); the
exceptions it can raise are exactly (a) the `ValueError("No AI models
available")` propagated from select_best_model when the configured set is
empty, and (b) `ValueError("Unsupported model: ...")` when the selector
picks OPENAI_GPT4_TURBO, which the dispatch lists omit — reachable with the
OpenAI client configured and speed_priority off. -/
theorem C1_generate_exception_characterization (st : AIState)
    (topic difficulty audience : String) (ct : ContentTypeE) (sp : Bool)
    (resp : Option (Option Json)) :
    (∀ e, generateEnhancedContent st topic difficulty audience ct sp resp = .error e →
        (availableModels st = [] ∧ e = "No AI models available")
        ∨ (e = "Unsupported model: " ++ pyModelStr .openai_gpt4_turbo
            ∧ sp = false ∧ st.openaiInit = true))
    ∧ (availableModels st = [] →
        generateEnhancedContent st topic difficulty audience ct sp resp
          = .error "No AI models available") := by
  obtain ⟨g, o⟩ := st
  constructor
  · intro e h
    rcases selectBestModel_init_characterization g o ct difficulty sp with
      ⟨hsel, hg, ho⟩ | ⟨m, hsel, hgroq, hopenai, hgemma, hturbo⟩
    · subst hg; subst ho
      unfold generateEnhancedContent at h
      rw [hsel] at h
      simp only [Except.error.injEq] at h
      exact Or.inl ⟨rfl, h.symm⟩
    · unfold generateEnhancedContent at h
      rw [hsel] at h
      cases m with
      | groq_llama =>
        have hg2 := hgroq (Or.inl rfl)
        subst hg2
        simp only [generateWithGroq] at h
        cases resp <;> simp_all
      | groq_mixtral =>
        have hg2 := hgroq (Or.inr rfl)
        subst hg2
        simp only [generateWithGroq] at h
        cases resp <;> simp_all
      | groq_gemma => exact absurd rfl hgemma
      | openai_gpt4 =>
        have ho2 := hopenai (Or.inl rfl)
        subst ho2
        simp only [generateWithOpenai] at h
        cases resp <;> simp_all
      | openai_gpt35 =>
        have ho2 := hopenai (Or.inr rfl)
        subst ho2
        simp only [generateWithOpenai] at h
        cases resp <;> simp_all
      | openai_gpt4_turbo =>
        have h2 : Except.error ("Unsupported model: " ++ pyModelStr ModelType.openai_gpt4_turbo)
            = (Except.error e : Except String Json) := by rw [← h]; rfl
        simp only [Except.error.injEq] at h2
        exact Or.inr ⟨h2.symm, (hturbo rfl).1, (hturbo rfl).2⟩
  · intro hA
    cases g <;> cases o <;> first | rfl | simp [availableModels] at hA

/-- C1 witness: with no backend configured at all, generate raises exactly
NoBackendAvailable. -/
theorem C1_witness :
    generateEnhancedContent ⟨false, false⟩ "Gravity" "beginner" "students"
      .educational true none = .error "No AI models available" :=
  (C1_generate_exception_characterization ⟨false, false⟩ "Gravity" "beginner"
    "students" .educational true none).2 rfl

/-- C1 counterexample: with the OpenAI backends configured (a non-empty
configured set) and a creative, quality-priority request, generate raises
`ValueError("Unsupported model: ModelType.OPENAI_GPT4_TURBO")`, an exception
other than NoBackendAvailable — refuting the claim that NoBackendAvailable
on an empty set is the only exception generate can raise. -/
theorem C1_counterexample :
    availableModels ⟨false, true⟩ ≠ []
    ∧ generateEnhancedContent ⟨false, true⟩ "Gravity" "beginner" "students"
        .creative false (some (some (Json.obj [])))
        = .error "Unsupported model: ModelType.OPENAI_GPT4_TURBO" := by
  constructor
  · decide
  · rfl

/-! ## C4/C5: shape of the fallback bundles and of parse results -/

set_option maxRecDepth 8192

theorem startsWithL_append_right (p s x : List Char) (h : startsWithL p s = true) :
    startsWithL p (s ++ x) = true := by
  induction p generalizing s with
  | nil => rfl
  | cons c cs ih =>
    cases s with
    | nil => simp [startsWithL] at h
    | cons d ds =>
      simp only [startsWithL, Bool.and_eq_true] at h
      simp only [List.cons_append, startsWithL, Bool.and_eq_true]
      exact ⟨h.1, ih ds h.2⟩

theorem containsL_append_right (p s x : List Char) (h : containsL p s = true) :
    containsL p (s ++ x) = true := by
  induction s with
  | nil =>
    have hp : p = [] := by
      cases p with
      | nil => rfl
      | cons c cs => simp [containsL, List.isEmpty] at h
    subst hp
    cases x with
    | nil => rfl
    | cons c cs => simp [containsL, startsWithL]
  | cons c cs ih =>
    simp only [containsL, Bool.or_eq_true] at h
    simp only [List.cons_append, containsL, Bool.or_eq_true]
    rcases h with h | h
    · exact Or.inl (startsWithL_append_right _ _ _ h)
    · exact Or.inr (ih h)

/-- Containment survives appending on the right. -/
theorem pyInStr_extend (pat s x : String) (h : pyInStr pat s = true) :
    pyInStr pat (s ++ x) = true := by
  unfold pyInStr at h ⊢
  rw [String.data_append]
  exact containsL_append_right _ _ _ h

/-- The required ContentSection fields (content_models.py declares
`subheading` as Optional, the rest as required): present, non-empty, with
3–4 key points and a positive duration. -/
def requiredSectionFields (sec : Json) : Prop :=
  (∃ s, sec.getStr "title" = some s ∧ 0 < s.length) ∧
  (∃ s, sec.getStr "content" = some s ∧ 0 < s.length) ∧
  (∃ ps, sec.lookup "key_points" = some (.arr ps) ∧ (ps.length = 3 ∨ ps.length = 4)
    ∧ ∀ p ∈ ps, ∃ q, p = Json.str q ∧ 0 < q.length) ∧
  (∃ s, sec.getStr "visual_description" = some s ∧ 0 < s.length) ∧
  (∃ n, sec.lookup "duration_estimate" = some (.num n) ∧ 0 < n)

/-- Presence of the optional subheading field, non-empty. -/
def sectionHasSubheading (sec : Json) : Prop :=
  ∃ s, sec.getStr "subheading" = some s ∧ 0 < s.length

theorem requiredSectionFields_intro (sec : Json) (t c v : String) (ps : List Json) (n : Int)
    (ht : sec.getStr "title" = some t) (ht0 : 0 < t.length)
    (hc : sec.getStr "content" = some c) (hc0 : 0 < c.length)
    (hk : sec.lookup "key_points" = some (.arr ps)) (hk1 : ps.length = 3 ∨ ps.length = 4)
    (hk2 : ∀ p ∈ ps, ∃ q, p = Json.str q ∧ 0 < q.length)
    (hv : sec.getStr "visual_description" = some v) (hv0 : 0 < v.length)
    (hn : sec.lookup "duration_estimate" = some (.num n)) (hn0 : 0 < n) :
    requiredSectionFields sec :=
  ⟨⟨t, ht, ht0⟩, ⟨c, hc, hc0⟩, ⟨ps, hk, hk1, hk2⟩, ⟨v, hv, hv0⟩, ⟨n, hn, hn0⟩⟩

/-- The AI fallback template has three sections, each fully populated
(subheading included). -/
theorem aiFallback_sections (topic difficulty audience : String) :
    ∃ xs, (createAiFallbackContent topic difficulty audience).lookup "sections"
        = some (.arr xs)
      ∧ xs.length = 3 ∧ ∀ sec ∈ xs, requiredSectionFields sec ∧ sectionHasSubheading sec := by
  refine ⟨_, rfl, rfl, ?_⟩
  intro sec hsec
  simp only [List.mem_cons, List.not_mem_nil, or_false] at hsec
  rcases hsec with rfl | rfl | rfl <;>
    refine ⟨requiredSectionFields_intro _ _ _ _ _ _ rfl (by decide) rfl (by decide)
      rfl (Or.inr rfl) ?_ rfl (by decide) rfl (by decide), _, rfl, by decide⟩ <;>
    (intro p hp;
     simp only [List.mem_cons, List.not_mem_nil, or_false] at hp;
     rcases hp with rfl | rfl | rfl | rfl <;> exact ⟨_, rfl, by decide⟩)

/-- The science fallback template has three sections whose required fields
are populated (it carries no subheading). -/
theorem scienceFallback_sections (topic difficulty audience : String) :
    ∃ xs, (createScienceFallbackContent topic difficulty audience).lookup "sections"
        = some (.arr xs)
      ∧ xs.length = 3 ∧ ∀ sec ∈ xs, requiredSectionFields sec := by
  refine ⟨_, rfl, rfl, ?_⟩
  intro sec hsec
  simp only [List.mem_cons, List.not_mem_nil, or_false] at hsec
  rcases hsec with rfl | rfl | rfl <;>
    refine requiredSectionFields_intro _ _ _ _ _ _
      rfl (by first | decide | exact length_pos_right _ _ (by decide) | exact length_pos_left _ _ (by decide))
      rfl (by first | decide | exact length_pos_right _ _ (by decide) | exact length_pos_left _ _ (by decide))
      rfl (Or.inl rfl) ?_
      rfl (by first | decide | exact length_pos_right _ _ (by decide) | exact length_pos_left _ _ (by decide))
      rfl (by decide) <;>
    (intro p hp;
     simp only [List.mem_cons, List.not_mem_nil, or_false] at hp;
     rcases hp with rfl | rfl | rfl <;>
       exact ⟨_, rfl, by first | decide | exact length_pos_right _ _ (by decide) | exact length_pos_left _ _ (by decide)⟩)

/-- The history fallback template has three sections whose required fields
are populated (it carries no subheading). -/
theorem historyFallback_sections (topic difficulty audience : String) :
    ∃ xs, (createHistoryFallbackContent topic difficulty audience).lookup "sections"
        = some (.arr xs)
      ∧ xs.length = 3 ∧ ∀ sec ∈ xs, requiredSectionFields sec := by
  refine ⟨_, rfl, rfl, ?_⟩
  intro sec hsec
  simp only [List.mem_cons, List.not_mem_nil, or_false] at hsec
  rcases hsec with rfl | rfl | rfl <;>
    refine requiredSectionFields_intro _ _ _ _ _ _
      rfl (by first | decide | exact length_pos_right _ _ (by decide) | exact length_pos_left _ _ (by decide))
      rfl (by first | decide | exact length_pos_right _ _ (by decide) | exact length_pos_left _ _ (by decide))
      rfl (Or.inl rfl) ?_
      rfl (by first | decide | exact length_pos_right _ _ (by decide) | exact length_pos_left _ _ (by decide))
      rfl (by decide) <;>
    (intro p hp;
     simp only [List.mem_cons, List.not_mem_nil, or_false] at hp;
     rcases hp with rfl | rfl | rfl <;>
       exact ⟨_, rfl, by first | decide | exact length_pos_right _ _ (by decide) | exact length_pos_left _ _ (by decide)⟩)

/-- The general fallback template: three fully-populated sections
(subheading included), the topic inside the first section title and inside
the narration. -/
theorem generalFallback_props (topic difficulty audience : String) :
    ∃ xs, (createGeneralFallbackContent topic difficulty audience).lookup "sections"
        = some (.arr xs)
      ∧ xs.length = 3
      ∧ (∀ sec ∈ xs, requiredSectionFields sec ∧ sectionHasSubheading sec)
      ∧ (∃ t1, xs.head?.bind (fun sec => sec.getStr "title") = some t1
          ∧ pyInStr topic t1 = true)
      ∧ (∃ narr, (createGeneralFallbackContent topic difficulty audience).getStr
            "full_explanation" = some narr ∧ pyInStr topic narr = true) := by
  refine ⟨_, rfl, rfl, ?_, ⟨_, rfl, pyInStr_self_right topic "🌍 Explain "⟩,
    ⟨_, rfl, pyInStr_extend _ _ _ (pyInStr_self_right topic _)⟩⟩
  intro sec hsec
  simp only [List.mem_cons, List.not_mem_nil, or_false] at hsec
  rcases hsec with rfl | rfl | rfl <;>
    refine ⟨requiredSectionFields_intro _ _ _ _ _ _
      rfl (by first | decide | exact length_pos_right _ _ (by decide) | exact length_pos_left _ _ (by decide))
      rfl (by first | decide | exact length_pos_right _ _ (by decide) | exact length_pos_left _ _ (by decide))
      rfl (Or.inr rfl) ?_
      rfl (by first | decide | exact length_pos_right _ _ (by decide) | exact length_pos_left _ _ (by decide))
      rfl (by decide),
      _, rfl, by first | decide | exact length_pos_right _ _ (by decide) | exact length_pos_left _ _ (by decide)⟩ <;>
    (intro p hp;
     simp only [List.mem_cons, List.not_mem_nil, or_false] at hp;
     rcases hp with rfl | rfl | rfl | rfl <;>
       exact ⟨_, rfl, by first | decide | exact length_pos_right _ _ (by decide) | exact length_pos_left _ _ (by decide)⟩)

/-- Accessor used by counterexamples: a string field of the first section of
a bundle. -/
def firstSectionStr (bundle : Json) (key : String) : Option String :=
  match bundle.lookup "sections" with
  | some (.arr (sec :: _)) => sec.getStr key
  | _ => none

/-- C4 (amended): the fallback bundle is a deterministic function of the
topic, classified by case-insensitive substring keyword match; for a topic
matching none of the keywords (the generic branch), every section field —
subheading included — is present and non-empty with the correct counts
(3 sections, 4 key points each), and the topic string appears in the first
section title and in the narration.  (The AI branch, reached by mere
substring match such as "ai" ⊆ "spain", uses fixed text that does not
mention the topic, and the science/history branches omit the subheading —
see the counterexample.) -/
theorem C4_fallback_generic_branch (topic difficulty audience : String)
    (hclass : classifyTopic topic = .general) :
    createFallbackContent topic difficulty audience
        = createGeneralFallbackContent topic difficulty audience
    ∧ (∃ xs, (createGeneralFallbackContent topic difficulty audience).lookup "sections"
          = some (.arr xs)
        ∧ xs.length = 3
        ∧ (∀ sec ∈ xs, requiredSectionFields sec ∧ sectionHasSubheading sec)
        ∧ (∃ t1, xs.head?.bind (fun sec => sec.getStr "title") = some t1
            ∧ pyInStr topic t1 = true))
    ∧ (∃ narr, (createGeneralFallbackContent topic difficulty audience).getStr
          "full_explanation" = some narr ∧ pyInStr topic narr = true) := by
  obtain ⟨xs, h1, h2, h3, h4, h5⟩ := generalFallback_props topic difficulty audience
  refine ⟨?_, ⟨xs, h1, h2, h3, h4⟩, h5⟩
  unfold createFallbackContent
  rw [hclass]

/-- C4 witness: "Gravity" matches no classifier keyword, so the fallback for
it is the generic template. -/
theorem C4_witness :
    createFallbackContent "Gravity" "beginner" "students"
      = createGeneralFallbackContent "Gravity" "beginner" "students" :=
  (C4_fallback_generic_branch "Gravity" "beginner" "students" (by decide)).1

/-- C4 counterexample: the claim fails on the code.  "Spain" is classified
into the AI branch (substring "ai"), whose narration and first title are
fixed strings that do not contain the topic; and for "physics" (science
branch) the first section carries no subheading field at all, so not every
Section field is present. -/
theorem C4_counterexample :
    classifyTopic "Spain" = TopicClass.ai
    ∧ Option.map (pyInStr "Spain")
        ((createFallbackContent "Spain" "beginner" "students").getStr "full_explanation")
        = some false
    ∧ Option.map (pyInStr "Spain")
        (firstSectionStr (createFallbackContent "Spain" "beginner" "students") "title")
        = some false
    ∧ firstSectionStr (createFallbackContent "physics" "beginner" "students") "subheading"
        = none := by
  refine ⟨by decide, by decide, by decide, by decide⟩

/-- C5 (amended): response handling performs no validation that a non-empty
`sections` list is present — a successfully parsed object is returned after
formatting enhancement even when `sections` is missing — but whenever
parsing fails the fallback bundle always has exactly 3 sections (within
1–6), each with 3–4 key points and non-empty required fields. -/
theorem C5_parse_shape (topic : String) :
    parseEnhancedResponse none topic = createFallbackContent topic "beginner" "students"
    ∧ parseEnhancedResponse (some (Json.obj [])) topic = Json.obj []
    ∧ ∀ (difficulty audience : String), ∃ xs,
        (createFallbackContent topic difficulty audience).lookup "sections" = some (.arr xs)
        ∧ xs.length = 3 ∧ ∀ sec ∈ xs, requiredSectionFields sec := by
  refine ⟨rfl, rfl, ?_⟩
  intro difficulty audience
  unfold createFallbackContent
  cases classifyTopic topic
  · obtain ⟨xs, h1, h2, h3⟩ := aiFallback_sections topic difficulty audience
    exact ⟨xs, h1, h2, fun sec hs => (h3 sec hs).1⟩
  · exact scienceFallback_sections topic difficulty audience
  · exact historyFallback_sections topic difficulty audience
  · obtain ⟨xs, h1, h2, h3, h4, h5⟩ := generalFallback_props topic difficulty audience
    exact ⟨xs, h1, h2, fun sec hs => (h3 sec hs).1⟩

/-- C5 counterexample: the backend response "{}" is well-formed JSON with no
`sections` key; response handling returns it unchanged, so the resulting
bundle has no sections at all — refuting both the claimed validation and the
claimed 1–6 section count.  Likewise an explicit empty `sections` list is
passed through. -/
theorem C5_counterexample :
    parseEnhancedResponse (some (Json.obj [])) "Gravity" = Json.obj []
    ∧ (Json.obj []).lookup "sections" = none
    ∧ parseEnhancedResponse (some (Json.obj [("sections", Json.arr [])])) "Gravity"
        = Json.obj [("sections", Json.arr [])]
    ∧ (Json.obj [("sections", Json.arr [])]).lookup "sections" = some (Json.arr []) := by
  refine ⟨rfl, rfl, rfl, rfl⟩

/-! ## SpeechSynthesizer (azure_speech_service.py) -/

/-- Python falsiness of an optional environment string (`os.getenv` yields
None when unset; the empty string is falsy too). -/
def pyFalsyOptStr : Option String → Bool
  | none => true
  | some s => s.length == 0

structure SpeechState where
  fallbackMode : Bool

/-- AzureSpeechService.__init__: with credentials missing, fallback mode is
set; otherwise the constructor *forces* fallback mode anyway ("🔧 Forcing
fallback mode for reliable voice generation...") and returns before the
Azure SpeechConfig setup, which is dead code. -/
def speechInit (speechKey speechRegion : Option String) : SpeechState :=
  if pyFalsyOptStr speechKey || pyFalsyOptStr speechRegion then { fallbackMode := true }
  else { fallbackMode := true }

theorem speechInit_forces_fallback (speechKey speechRegion : Option String) :
    (speechInit speechKey speechRegion).fallbackMode = true := by
  unfold speechInit
  split <;> rfl

inductive TTSRoute where
  | fallbackChain
  | chunked
  | direct
deriving DecidableEq, Repr

/-- The dispatch at the top of AzureSpeechService.text_to_speech: fallback
mode short-circuits everything; otherwise texts longer than 2000 characters
go to _text_to_speech_chunked and the rest to the direct Azure path (whose
60-second timeout also falls back). -/
def textToSpeechRoute (st : SpeechState) (text : String) : TTSRoute :=
  if st.fallbackMode then .fallbackChain
  else if text.length > 2000 then .chunked
  else .direct

/-- `text.split('. ')` of _text_to_speech_chunked, over characters. -/
def splitDotSpace : List Char → List Char → List (List Char)
  | [], cur => [cur.reverse]
  | [c], cur => [(c :: cur).reverse]
  | c1 :: c2 :: rest, cur =>
    if c1 = '.' ∧ c2 = ' ' then cur.reverse :: splitDotSpace rest []
    else splitDotSpace (c2 :: rest) (c1 :: cur)

/-- The greedy chunk-accumulation loop of _text_to_speech_chunked: a
sentence is appended (plus `". "`) while `len(current_chunk + sentence)`
stays under 1500; otherwise the stripped current chunk is flushed (when
non-empty) and the sentence starts a fresh chunk regardless of its own
length. -/
def buildChunks : List (List Char) → List Char → List (List Char) → List (List Char)
  | [], cur, acc => if cur.isEmpty then acc else acc ++ [trimL cur]
  | s :: rest, cur, acc =>
    if cur.length + s.length < 1500 then
      buildChunks rest (cur ++ s ++ ['.', ' ']) acc
    else if cur.isEmpty then buildChunks rest (s ++ ['.', ' ']) acc
    else buildChunks rest (s ++ ['.', ' ']) (acc ++ [trimL cur])

/-- Sentence splitting followed by chunk building, as performed by
_text_to_speech_chunked on a long text. -/
def splitTextChunks (text : List Char) : List (List Char) :=
  buildChunks (splitDotSpace text []) [] []

/-- Chunk file naming: `output_path.replace('.wav', f'_chunk_{i}.wav')`. -/
def chunkPathName (outputPath : String) (i : Nat) : String :=
  pyReplace outputPath ".wav" ("_chunk_" ++ toString i ++ ".wav")

structure ChunkedRun where
  synthesizedChunkPaths : List String
  returnedPath : String
  deletedPaths : List String

/-- _text_to_speech_chunked followed by _combine_audio_files: every chunk is
synthesized in order through the direct path; on a successful ffmpeg concat
(exit status 0) the combined file at the output path is returned and the
chunk files are removed; on failure the first chunk path is returned and
nothing is deleted. -/
def ttsChunked (text : List Char) (outputPath : String) (combineOK : Bool) : ChunkedRun :=
  let chunks := splitTextChunks text
  let paths := (List.range chunks.length).map (chunkPathName outputPath)
  if combineOK then
    { synthesizedChunkPaths := paths, returnedPath := outputPath, deletedPaths := paths }
  else
    { synthesizedChunkPaths := paths,
      returnedPath := match paths with | [] => outputPath | p :: _ => p,
      deletedPaths := [] }

/-- Outcomes of the external audio producers inside
_fallback_text_to_speech: `none` when the method is unavailable, raises, or
times out without completing; `some n` when it ran to completion leaving a
file of `n` bytes at the output path (for espeak: exit status 0 with the
file present). -/
structure SpeechEnv where
  makedirsOK : Bool
  pyttsx3 : Option Nat
  espeak : Option Nat
  gtts : Option Nat
  waveOK : Bool

/-- The `os.path.exists and os.path.getsize > 1000` acceptance check used
for the pyttsx3 and gTTS tiers. -/
def acceptedOver1000 : Option Nat → Bool
  | some n => decide (1000 < n)
  | none => false

/-- Word-count duration heuristic of _create_silent_audio:
`max(5, word_count / 150 * 60)` seconds of silence at 22050 Hz, 16-bit
mono, behind the 44-byte WAV header. -/
def silentAudioBytes (text : String) : Nat :=
  44 + 2 * (Nat.floor ((22050 : ℚ) * (max 5 (((pyWords text).length : ℚ) / 150 * 60))))

/-- _create_silent_audio: writes the silent WAV; when the wave module write
fails, the absolute fallback writes an empty file. -/
def createSilentAudio (env : SpeechEnv) (text : String) : Nat :=
  if env.waveOK then silentAudioBytes text else 0

/-- _fallback_text_to_speech: pyttsx3 (accepted only over 1000 bytes), then
espeak (accepted on mere existence), then gTTS (same 1000-byte check), then
synthetic silence; a failure before the chain (os.makedirs) lands in the
outer except clause, which also ends in _create_silent_audio.  The result
is the returned path and the final byte size of the file at it.  Every
exception path of the source is caught, which is why the model is total. -/
def fallbackTextToSpeech (env : SpeechEnv) (text outputPath : String) : String × Nat :=
  if !env.makedirsOK then (outputPath, createSilentAudio env text)
  else if acceptedOver1000 env.pyttsx3 then (outputPath, env.pyttsx3.getD 0)
  else
    match env.espeak with
    | some m => (outputPath, m)
    | none =>
      if acceptedOver1000 env.gtts then (outputPath, env.gtts.getD 0)
      else (outputPath, createSilentAudio env text)

theorem silentAudioBytes_pos (text : String) : 0 < silentAudioBytes text := by
  unfold silentAudioBytes
  omega

theorem acceptedOver1000_pos (o : Option Nat) (h : acceptedOver1000 o = true) :
    0 < o.getD 0 := by
  cases o with
  | none => simp [acceptedOver1000] at h
  | some n =>
    simp only [acceptedOver1000, decide_eq_true_eq] at h
    simp only [Option.getD_some]
    omega

/-- C2: text_to_speech in the state produced by __init__ always takes the
fallback chain (whose every branch catches, so the call never raises),
returns exactly the requested output path, and leaves a non-empty file
there — for any text of 1 to 100000 characters and any availability of the
external producers, given that an espeak run reported successful wrote a
non-empty file and that the wave module is intact. -/
theorem C2_synthesize_total (speechKey speechRegion : Option String)
    (env : SpeechEnv) (text outputPath : String)
    (hlen : 1 ≤ text.length ∧ text.length ≤ 100000)
    (hespeak : ∀ m, env.espeak = some m → 0 < m)
    (hwave : env.waveOK = true) :
    textToSpeechRoute (speechInit speechKey speechRegion) text = .fallbackChain
    ∧ (fallbackTextToSpeech env text outputPath).1 = outputPath
    ∧ 0 < (fallbackTextToSpeech env text outputPath).2 := by
  refine ⟨by simp [textToSpeechRoute, speechInit_forces_fallback], ?_⟩
  obtain ⟨mk, p3, esp, gt, wv⟩ := env
  have hw : wv = true := hwave
  subst hw
  have hsilent : 0 < createSilentAudio ⟨mk, p3, esp, gt, true⟩ text := by
    simpa [createSilentAudio] using silentAudioBytes_pos text
  cases mk with
  | false => exact ⟨rfl, hsilent⟩
  | true =>
    cases hp : acceptedOver1000 p3 with
    | true =>
      constructor
      · simp [fallbackTextToSpeech, hp]
      · simpa [fallbackTextToSpeech, hp] using acceptedOver1000_pos p3 hp
    | false =>
      cases esp with
      | some m =>
        constructor
        · simp [fallbackTextToSpeech, hp]
        · simpa [fallbackTextToSpeech, hp] using hespeak m rfl
      | none =>
        cases hg : acceptedOver1000 gt with
        | true =>
          constructor
          · simp [fallbackTextToSpeech, hp, hg]
          · simpa [fallbackTextToSpeech, hp, hg] using acceptedOver1000_pos gt hg
        | false =>
          constructor
          · simp [fallbackTextToSpeech, hp, hg]
          · simpa [fallbackTextToSpeech, hp, hg] using hsilent

/-- C2 witness: a concrete environment in which only espeak is reachable. -/
theorem C2_witness :
    (fallbackTextToSpeech ⟨true, none, some 2000, none, true⟩ "Hello world." "narration.wav").1
        = "narration.wav"
    ∧ 0 < (fallbackTextToSpeech ⟨true, none, some 2000, none, true⟩ "Hello world." "narration.wav").2 :=
  (C2_synthesize_total none none ⟨true, none, some 2000, none, true⟩ "Hello world."
    "narration.wav" (by decide)
    (fun m h => by injection h with h2; omega) rfl).2

theorem length_dropWhile_le (p : Char → Bool) (l : List Char) :
    (l.dropWhile p).length ≤ l.length := by
  induction l with
  | nil => simp [List.dropWhile]
  | cons c cs ih =>
    cases hp : p c with
    | true =>
      simp only [List.dropWhile, hp, List.length_cons]
      omega
    | false => simp [List.dropWhile, hp]

theorem trimL_length_le (xs : List Char) : (trimL xs).length ≤ xs.length := by
  unfold trimL
  calc (((xs.dropWhile Char.isWhitespace).reverse.dropWhile Char.isWhitespace).reverse).length
      = ((xs.dropWhile Char.isWhitespace).reverse.dropWhile Char.isWhitespace).length := by
        rw [List.length_reverse]
    _ ≤ (xs.dropWhile Char.isWhitespace).reverse.length := length_dropWhile_le _ _
    _ = (xs.dropWhile Char.isWhitespace).length := by rw [List.length_reverse]
    _ ≤ xs.length := length_dropWhile_le _ _

/-- Invariant proof for the chunk-accumulation loop: if every sentence is at
most 1497 characters, every produced chunk is at most 1501 characters (the
loop admits a chunk of length up to 1499 + 2 for the appended `". "`). -/
theorem buildChunks_bound (ss : List (List Char)) (cur : List Char)
    (acc : List (List Char)) (hss : ∀ s ∈ ss, s.length ≤ 1497)
    (hcur : cur.length ≤ 1501) (hacc : ∀ c ∈ acc, c.length ≤ 1501) :
    ∀ c ∈ buildChunks ss cur acc, c.length ≤ 1501 := by
  induction ss generalizing cur acc with
  | nil =>
    intro c hc
    unfold buildChunks at hc
    by_cases h : cur.isEmpty
    · rw [if_pos h] at hc
      exact hacc c hc
    · rw [if_neg h] at hc
      rcases List.mem_append.mp hc with h2 | h2
      · exact hacc c h2
      · simp only [List.mem_singleton] at h2
        subst h2
        exact le_trans (trimL_length_le cur) hcur
  | cons s rest ih =>
    intro c hc
    have hs : s.length ≤ 1497 := hss s (List.mem_cons_self s rest)
    have hrest : ∀ s2 ∈ rest, s2.length ≤ 1497 :=
      fun s2 h2 => hss s2 (List.mem_cons_of_mem s h2)
    unfold buildChunks at hc
    by_cases h1 : cur.length + s.length < 1500
    · rw [if_pos h1] at hc
      refine ih (cur ++ s ++ ['.', ' ']) acc hrest ?_ hacc c hc
      simp only [List.length_append, List.length_cons, List.length_nil]
      omega
    · rw [if_neg h1] at hc
      by_cases h2 : cur.isEmpty
      · rw [if_pos h2] at hc
        refine ih (s ++ ['.', ' ']) acc hrest ?_ hacc c hc
        simp only [List.length_append, List.length_cons, List.length_nil]
        omega
      · rw [if_neg h2] at hc
        refine ih (s ++ ['.', ' ']) (acc ++ [trimL cur]) hrest ?_ ?_ c hc
        · simp only [List.length_append, List.length_cons, List.length_nil]
          omega
        · intro c2 hc2
          rcases List.mem_append.mp hc2 with h3 | h3
          · exact hacc c2 h3
          · simp only [List.mem_singleton] at h3
            subst h3
            exact le_trans (trimL_length_le cur) hcur

/-- C6 (amended): as initialized, synthesize always routes to the fallback
chain, so the chunked path is unreachable in the shipped code; were it
reached, the split yields chunks of at most 1501 characters whenever every
sentence is at most 1497 characters (not strictly under 1500, and a text
without sentence boundaries yields one oversized chunk), the chunks are
synthesized in list order, and on successful concatenation the combined
output path is returned with every intermediate chunk file deleted. -/
theorem C6_chunking_behavior :
    (∀ (speechKey speechRegion : Option String) (text : String),
      textToSpeechRoute (speechInit speechKey speechRegion) text = .fallbackChain)
    ∧ (∀ text : List Char, (∀ s ∈ splitDotSpace text [], s.length ≤ 1497) →
        ∀ c ∈ splitTextChunks text, c.length ≤ 1501)
    ∧ (∀ (text : List Char) (outputPath : String),
        (ttsChunked text outputPath true).returnedPath = outputPath
        ∧ (ttsChunked text outputPath true).deletedPaths
            = (ttsChunked text outputPath true).synthesizedChunkPaths
        ∧ (ttsChunked text outputPath true).synthesizedChunkPaths
            = (List.range (splitTextChunks text).length).map (chunkPathName outputPath)) := by
  refine ⟨?_, ?_, ?_⟩
  · intro speechKey speechRegion text
    simp [textToSpeechRoute, speechInit_forces_fallback]
  · intro text hss
    exact buildChunks_bound (splitDotSpace text []) [] [] hss (by simp) (by simp)
  · intro text outputPath
    exact ⟨rfl, rfl, rfl⟩

/-- C6 witness: the chunk produced for a small two-sentence text respects
the 1501-character bound. -/
theorem C6_witness :
    (['a', 'b', 'c', '.', ' ', 'd', 'e', 'f', '.'] : List Char).length ≤ 1501 :=
  C6_chunking_behavior.2.1 ['a', 'b', 'c', '.', ' ', 'd', 'e', 'f'] (by decide)
    ['a', 'b', 'c', '.', ' ', 'd', 'e', 'f', '.'] (by decide)

/-- Splitting a text that contains no period returns the single sentence
unchanged. -/
theorem splitDotSpace_no_sep : ∀ (xs : List Char), (∀ c ∈ xs, c ≠ '.') →
    ∀ cur, splitDotSpace xs cur = [cur.reverse ++ xs] := by
  intro xs
  induction xs with
  | nil =>
    intro h cur
    simp [splitDotSpace]
  | cons c1 tail ih =>
    intro h cur
    cases tail with
    | nil => simp [splitDotSpace]
    | cons c2 rest =>
      have hc1 : c1 ≠ '.' := h c1 (by simp)
      have htail : ∀ c ∈ (c2 :: rest), c ≠ '.' := fun c hc => h c (by simp [hc])
      simp only [splitDotSpace]
      rw [if_neg (fun hh => hc1 hh.1)]
      rw [ih htail (c1 :: cur)]
      simp

/-- C6 counterexample: in the state produced by __init__ (credentials
present or not), a 2001-character text is routed to the fallback chain —
text_to_speech never reaches the chunked path — and moreover the splitter
itself, on a 2001-character text with no sentence boundary, produces a
single chunk rather than at least two chunks each under 1500 characters. -/
theorem C6_counterexample :
    textToSpeechRoute (speechInit (some "key") (some "region"))
        (String.mk (List.replicate 2001 'a')) = .fallbackChain
    ∧ (splitTextChunks (List.replicate 2001 'a')).length = 1
    ∧ ¬ (2 ≤ (splitTextChunks (List.replicate 2001 'a')).length
        ∧ ∀ c ∈ splitTextChunks (List.replicate 2001 'a'), c.length < 1500) := by
  have hno : ∀ c ∈ List.replicate 2001 'a', c ≠ '.' := by
    intro c hc
    have h2 := List.eq_of_mem_replicate hc
    subst h2
    decide
  have hsd := splitDotSpace_no_sep _ hno []
  have hchunks : splitTextChunks (List.replicate 2001 'a')
      = [trimL (List.replicate 2001 'a' ++ ['.', ' '])] := by
    unfold splitTextChunks
    rw [hsd]
    simp only [List.reverse_nil, List.nil_append]
    unfold buildChunks
    rw [if_neg (by simp)]
    rw [if_pos (show ([] : List Char).isEmpty = true from rfl)]
    unfold buildChunks
    rw [if_neg (by simp)]
    simp
  refine ⟨rfl, ?_, ?_⟩
  · rw [hchunks]
    rfl
  · rw [hchunks]
    rintro ⟨h2, -⟩
    simp at h2

/-! ## VideoAssembler (video_service.py) -/

/-- `os.path.dirname`: everything before the final slash, empty for a bare
file name. -/
def dirname (p : String) : String :=
  let parts := pySplitSep p "/"
  if parts.length = 1 then "" else pyJoin "/" parts.dropLast

/-- Outcomes of the external encoders: `moviepySize` is `none` when the
moviepy closure raises (library error, bad media, encoder failure) and
`some n` when it wrote an `n`-byte video; `ffmpegSize` likewise for the
direct ffmpeg invocation (`none` for a non-zero exit status). -/
structure VideoEnv where
  moviepyAvailable : Bool
  moviepySize : Option Nat
  firstSlideExists : Bool
  ffmpegSize : Option Nat

/-- The textual placeholder written by _create_simple_video when ffmpeg is
not usable (the list is interpolated as its repr). -/
def placeholderText (audioPath : String) (animationPaths : List String) : String :=
  "Video creation failed. Please check ffmpeg installation.\n"
    ++ "Audio file: " ++ audioPath ++ "\n"
    ++ "Animation files: " ++ toString animationPaths ++ "\n"

theorem placeholderText_pos (audioPath : String) (animationPaths : List String) :
    0 < (placeholderText audioPath animationPaths).length := by
  unfold placeholderText
  repeat apply length_pos_left
  decide

/-- VideoService._create_simple_video: an ffmpeg still-image video from the
first slide when one exists and ffmpeg exits 0, and the textual placeholder
in every other case; the result is the returned path (always the requested
output path) and the byte size of the artifact written there. -/
def createSimpleVideo (env : VideoEnv) (audioPath : String)
    (animationPaths : List String) (outputPath : String) : String × Nat :=
  match animationPaths with
  | [] => (outputPath, (placeholderText audioPath animationPaths).length)
  | _ :: _ =>
    if env.firstSlideExists then
      match env.ffmpegSize with
      | some n => (outputPath, n)
      | none => (outputPath, (placeholderText audioPath animationPaths).length)
    else (outputPath, (placeholderText audioPath animationPaths).length)

/-- VideoService.create_final_video:
`os.makedirs(os.path.dirname(output_path), exist_ok=True)` runs before any
try/except and raises FileNotFoundError when the dirname is empty (a bare
file name); then the moviepy path when the library imported, falling back to
_create_simple_video on ImportError or on any exception inside the moviepy
closure. -/
def createFinalVideo (env : VideoEnv) (audioPath : String)
    (animationPaths : List String) (outputPath : String) : Except String (String × Nat) :=
  if dirname outputPath = "" then .error "FileNotFoundError"
  else if !env.moviepyAvailable then
    .ok (createSimpleVideo env audioPath animationPaths outputPath)
  else
    match env.moviepySize with
    | some n => .ok (outputPath, n)
    | none => .ok (createSimpleVideo env audioPath animationPaths outputPath)

/-- C3 (amended): for every output path whose directory component is
non-empty, create_final_video returns the requested path with a non-empty
artifact written there, for any slide list (empty included) and any
availability of moviepy/ffmpeg — the placeholder file is the last resort.
(For a bare file name the initial os.makedirs raises before any fallback —
see the counterexample.) -/
theorem C3_assemble_total (env : VideoEnv) (audioPath : String)
    (animationPaths : List String) (outputPath : String)
    (hdir : dirname outputPath ≠ "")
    (hmp : ∀ n, env.moviepySize = some n → 0 < n)
    (hff : ∀ n, env.ffmpegSize = some n → 0 < n) :
    ∃ sz, createFinalVideo env audioPath animationPaths outputPath
        = .ok (outputPath, sz) ∧ 0 < sz := by
  obtain ⟨mav, msz, fse, ffs⟩ := env
  have hplace : 0 < (placeholderText audioPath animationPaths).length :=
    placeholderText_pos _ _
  have hsimple : ∃ sz, createSimpleVideo ⟨mav, msz, fse, ffs⟩ audioPath animationPaths outputPath
      = (outputPath, sz) ∧ 0 < sz := by
    cases animationPaths with
    | nil => exact ⟨_, rfl, hplace⟩
    | cons f rest =>
      cases fse with
      | false => exact ⟨_, rfl, hplace⟩
      | true =>
        cases ffs with
        | some n => exact ⟨n, rfl, hff n rfl⟩
        | none => exact ⟨_, rfl, hplace⟩
  obtain ⟨sz, hs, hpos⟩ := hsimple
  cases mav with
  | false =>
    refine ⟨sz, ?_, hpos⟩
    unfold createFinalVideo
    rw [if_neg hdir]
    show Except.ok (createSimpleVideo ⟨false, msz, fse, ffs⟩ audioPath animationPaths outputPath) = _
    rw [hs]
  | true =>
    cases msz with
    | some n =>
      refine ⟨n, ?_, hmp n rfl⟩
      unfold createFinalVideo
      rw [if_neg hdir]
      rfl
    | none =>
      refine ⟨sz, ?_, hpos⟩
      unfold createFinalVideo
      rw [if_neg hdir]
      show Except.ok (createSimpleVideo ⟨true, none, fse, ffs⟩ audioPath animationPaths outputPath) = _
      rw [hs]

/-- C3 witness: a normal job-scoped output path with every encoder
working. -/
theorem C3_witness :
    ∃ sz, createFinalVideo ⟨true, some 4096, true, some 2048⟩ "a.wav" ["s1.png"]
        "out/final_video.mp4" = .ok ("out/final_video.mp4", sz) ∧ 0 < sz :=
  C3_assemble_total ⟨true, some 4096, true, some 2048⟩ "a.wav" ["s1.png"]
    "out/final_video.mp4" (by decide)
    (fun n h => by injection h with h2; omega)
    (fun n h => by injection h with h2; omega)

/-- C3 counterexample: for the output path "final_video.mp4" (no directory
component) create_final_video raises FileNotFoundError from the unguarded
os.makedirs call — refuting "never raises to its caller ... for every output
path". -/
theorem C3_counterexample :
    createFinalVideo ⟨true, some 4096, true, some 2048⟩ "a.wav" ["s1.png"]
      "final_video.mp4" = .error "FileNotFoundError" := rfl

/-! ## Slide clip durations (_create_moviepy_video) -/

structure MClip where
  isColor : Bool
  path : String
  duration : ℚ
deriving DecidableEq, Repr

/-- The fixed 0.5-second transition of _create_moviepy_video. -/
def transitionDuration : ℚ := 1 / 2

/-- The image-clip construction loop: the per-image duration is computed
once from the FULL list length (`len(animation_paths)`), while a clip is
created only for each path that exists on disk.  Resizing and encoding are
not modelled — only clip identities and durations. -/
def buildImageClips (audioDuration : ℚ) (animationPaths : List String)
    (fileExists : String → Bool) : List MClip :=
  match animationPaths with
  | [] => []
  | _ :: _ =>
    let totalTransitionTime := ((animationPaths.length : ℚ) - 1) * transitionDuration
    let durationPerImage := (audioDuration - totalTransitionTime) / (animationPaths.length : ℚ)
    (animationPaths.filter fileExists).map
      (fun p => { isColor := false, path := p, duration := durationPerImage })

/-- The video track handed to the audio-attachment step: the image clips,
or the fixed-colour (30, 41, 59) background clip of exactly the audio
duration when no image clip was created. -/
def videoTrackClips (audioDuration : ℚ) (animationPaths : List String)
    (fileExists : String → Bool) : List MClip :=
  let clips := buildImageClips audioDuration animationPaths fileExists
  if clips.isEmpty then [{ isColor := true, path := "", duration := audioDuration }]
  else clips

/-- C9: in the primary assembly path, for audio of duration D and a
non-empty list of N slide images every constructed slide clip has duration
(D − (N−1)·0.5) / N with the fixed 0.5 s transition, and for an empty image
list the track is a single fixed-colour background clip of duration exactly
D. -/
theorem C9_slide_durations (audioDuration : ℚ) (animationPaths : List String)
    (fileExists : String → Bool) :
    (animationPaths ≠ [] →
      ∀ clip ∈ buildImageClips audioDuration animationPaths fileExists,
        clip.isColor = false
        ∧ clip.duration
            = (audioDuration - ((animationPaths.length : ℚ) - 1) * transitionDuration)
                / (animationPaths.length : ℚ))
    ∧ videoTrackClips audioDuration [] fileExists
        = [{ isColor := true, path := "", duration := audioDuration }] := by
  constructor
  · intro hne clip hclip
    cases animationPaths with
    | nil => exact absurd rfl hne
    | cons a rest =>
      unfold buildImageClips at hclip
      simp only [List.mem_map] at hclip
      obtain ⟨p, hp, rfl⟩ := hclip
      exact ⟨rfl, rfl⟩
  · rfl

/-- C9 witness: two slides over 20 seconds of audio; the first clip carries
the computed duration (20 − 0.5) / 2. -/
theorem C9_witness :
    MClip.isColor ⟨false, "a", ((20 : ℚ) - (((["a", "b"] : List String).length : ℚ) - 1)
        * transitionDuration) / ((["a", "b"] : List String).length : ℚ)⟩ = false
    ∧ MClip.duration ⟨false, "a", ((20 : ℚ) - (((["a", "b"] : List String).length : ℚ) - 1)
        * transitionDuration) / ((["a", "b"] : List String).length : ℚ)⟩
      = ((20 : ℚ) - (((["a", "b"] : List String).length : ℚ) - 1) * transitionDuration)
          / ((["a", "b"] : List String).length : ℚ) :=
  (C9_slide_durations 20 ["a", "b"] (fun _ => true)).1 (by simp)
    ⟨false, "a", _⟩ (List.mem_cons_self _ _)

/-! ## JobCoordinator (main.py process_content_generation, ProcessingStatus) -/

structure JobStatus where
  jobId : String
  status : String
  progress : Nat
  message : String
  resultData : Option Json
  error : Option String

/-- ProcessingStatus.update_status: overwrites status, progress and
message; `result_data` is stored only when truthy (Python
`if result_data:`); the `error` field is never assigned by any code path. -/
def JobStatus.updateStatus (j : JobStatus) (status : String) (progress : Nat)
    (message : String) (resultData : Option Json) : JobStatus :=
  { j with
    status := status
    progress := progress
    message := message
    resultData :=
      if (match resultData with | some d => d.pyTruthy | none => false) then resultData
      else j.resultData }

/-- The ProcessingStatus allocated by the generate-content endpoint
(`status="started", progress=0`). -/
def initialJob (jobId : String) : JobStatus :=
  { jobId := jobId, status := "started", progress := 0,
    message := "Starting content generation...", resultData := none, error := none }

/-- main.py process_content_generation as a trace of ProcessingStatus
snapshots: `e1..e4` are the outcomes of the text, audio, animation and
video stages (`some t` when the stage raised an exception whose text is
`t`); `payload` is the result dict assembled on success.  On an exception,
the except clause re-reads the job's current progress and writes status
"failed" with the exception text embedded in the MESSAGE. -/
def processContentGeneration (jobId : String) (e1 e2 e3 e4 : Option String)
    (payload : Json) : List JobStatus :=
  let j0 := initialJob jobId
  let j1 := j0.updateStatus "generating_text" 10 "Generating explanation text..." none
  match e1 with
  | some t => [j0, j1,
      j1.updateStatus "failed" j1.progress ("Content generation failed: " ++ t) none]
  | none =>
    let j2 := j1.updateStatus "generating_audio" 30 "Converting text to speech..." none
    match e2 with
    | some t => [j0, j1, j2,
        j2.updateStatus "failed" j2.progress ("Content generation failed: " ++ t) none]
    | none =>
      let j3 := j2.updateStatus "generating_animations" 50 "Creating animated visuals..." none
      match e3 with
      | some t => [j0, j1, j2, j3,
          j3.updateStatus "failed" j3.progress ("Content generation failed: " ++ t) none]
      | none =>
        let j4 := j3.updateStatus "combining_video" 80 "Combining audio and visuals..." none
        match e4 with
        | some t => [j0, j1, j2, j3, j4,
            j4.updateStatus "failed" j4.progress ("Content generation failed: " ++ t) none]
        | none =>
          [j0, j1, j2, j3, j4,
            j4.updateStatus "completed" 100 "Content generation completed successfully!"
              (some payload)]

/-- Non-decreasing check over a progress sequence. -/
def monotoneNat : List Nat → Bool
  | [] => true
  | [_] => true
  | a :: b :: rest => Nat.ble a b && monotoneNat (b :: rest)

/-- C7: along every background execution — whichever stage fails, if any —
the job's progress sequence is monotone non-decreasing and only takes the
checkpoint values 0, 10, 30, 50, 80, 100 (in particular this holds while
the state is not "failed"; the failure update itself repeats the current
progress). -/
theorem C7_progress_monotone (jobId : String) (e1 e2 e3 e4 : Option String) (payload : Json) :
    monotoneNat ((processContentGeneration jobId e1 e2 e3 e4 payload).map JobStatus.progress)
        = true
    ∧ ((processContentGeneration jobId e1 e2 e3 e4 payload).map JobStatus.progress).all
        (fun p => [0, 10, 30, 50, 80, 100].contains p) = true := by
  cases e1 <;> cases e2 <;> cases e3 <;> cases e4 <;> exact ⟨rfl, rfl⟩

/-- The outcome quadruple for a run whose k-th stage (0: text, 1: audio,
2: animations, 3: video) raises with text `t`. -/
def failOutcomes : Fin 4 → String → Option String × Option String × Option String × Option String
  | 0, t => (some t, none, none, none)
  | 1, t => (none, some t, none, none)
  | 2, t => (none, none, some t, none)
  | 3, t => (none, none, none, some t)

/-- The checkpoint progress value in force while stage k runs. -/
def checkpointBefore : Fin 4 → Nat
  | 0 => 10
  | 1 => 30
  | 2 => 50
  | 3 => 80

/-- C8 (amended): when any stage raises, the final job snapshot has status
"failed", the exception text embedded in the MESSAGE field
("Content generation failed: ..."), progress frozen at the checkpoint in
force when the exception occurred — and the `error` field is left `None`:
no code path ever assigns it, contrary to the claim that it holds the
exception text. -/
theorem C8_failure_terminal (jobId t : String) (k : Fin 4) (payload : Json) :
    ((processContentGeneration jobId (failOutcomes k t).1 (failOutcomes k t).2.1
        (failOutcomes k t).2.2.1 (failOutcomes k t).2.2.2 payload).getLastD
        (initialJob jobId)).status = "failed"
    ∧ ((processContentGeneration jobId (failOutcomes k t).1 (failOutcomes k t).2.1
        (failOutcomes k t).2.2.1 (failOutcomes k t).2.2.2 payload).getLastD
        (initialJob jobId)).message = "Content generation failed: " ++ t
    ∧ ((processContentGeneration jobId (failOutcomes k t).1 (failOutcomes k t).2.1
        (failOutcomes k t).2.2.1 (failOutcomes k t).2.2.2 payload).getLastD
        (initialJob jobId)).error = none
    ∧ ((processContentGeneration jobId (failOutcomes k t).1 (failOutcomes k t).2.1
        (failOutcomes k t).2.2.1 (failOutcomes k t).2.2.2 payload).getLastD
        (initialJob jobId)).progress = checkpointBefore k := by
  fin_cases k <;> exact ⟨rfl, rfl, rfl, rfl⟩

/-- C8 counterexample: a run whose first stage raises "boom" ends failed
with the text in `message` and progress 10, but its `error` field is `None`
— not the exception text the claim requires. -/
theorem C8_counterexample :
    ((processContentGeneration "job-1" (some "boom") none none none Json.null).getLastD
        (initialJob "job-1")).status = "failed"
    ∧ ((processContentGeneration "job-1" (some "boom") none none none Json.null).getLastD
        (initialJob "job-1")).message = "Content generation failed: boom"
    ∧ ((processContentGeneration "job-1" (some "boom") none none none Json.null).getLastD
        (initialJob "job-1")).error = none
    ∧ ((processContentGeneration "job-1" (some "boom") none none none Json.null).getLastD
        (initialJob "job-1")).progress = 10 :=
  ⟨rfl, rfl, rfl, rfl⟩

/-- C5 witness: the parse-failure fallback at a concrete topic. -/
theorem C5_witness :
    parseEnhancedResponse none "Gravity"
      = createFallbackContent "Gravity" "beginner" "students" :=
  (C5_parse_shape "Gravity").1
